import Mathlib

/-!
Shallow embedding of the REQ request/reply pattern socket implemented in
src/src/patterns/reqrep/req.c (nanomsg).  The state of `struct sp_req` is a
Lean structure; buffers are lists of bytes (naturals below 256 in practice);
the send / recv / resend / option operations are pure functions returning the
C return code together with the updated state and the data that crossed the
collaborator boundary (the buffer handed to the raw xreq socket, the bytes
copied into the caller's buffer).  Machine integers are modelled as `Nat`
with explicit masking where the C code masks, and the C `int` option value as
`Int`.  External collaborators (the raw xreq socket, the timer service, the
wire codec in utils/wire.h, the entropy source) are not under src/ and are
modelled from the spec where the claims need them; each such definition says
so in its doc comment.
-/

/-- Error code for resource temporarily unavailable (system errno; the exact
numeric value is immaterial, only distinctness matters). -/
def EAGAIN : Int := 11

/-- Error code for invalid argument (system errno). -/
def EINVAL : Int := 22

/-- Error code for option not supported by protocol (system errno). -/
def ENOPROTOOPT : Int := 92

/-- Modelled from the spec: EFSM, the bad-state error code of the library
(declared in the public header, which is not under src/); the spec calls it
the "bad state" error for protocol misuse. -/
def EFSM : Int := 156384765

/-- Modelled from the spec: SP_RESEND_IVL, the resend-interval option
identifier (declared in the public header, which is not under src/). -/
def SP_RESEND_IVL : Int := 2

/-- Default resend interval, req.c line 36: 60000 ms. -/
def SP_REQ_DEFAULT_RESEND_IVL : Int := 60000

/-- In-progress flag bit, req.c line 38. -/
def SP_REQ_INPROGRESS : Nat := 1

/-- Modelled from the spec: sp_putl from utils/wire.h (declared but not under
src/); 4-byte big-endian encode of a 32-bit unsigned value, spec section 4.2:
"Encode: 4-byte big-endian unsigned integer". -/
def sp_putl (val : Nat) : List Nat :=
  [(val >>> 24) &&& 0xff, (val >>> 16) &&& 0xff, (val >>> 8) &&& 0xff,
   val &&& 0xff]

/-- Modelled from the spec: sp_getl from utils/wire.h (declared but not under
src/); 4-byte big-endian decode, spec section 4.2: "Decode: read 4-byte
big-endian unsigned integer".  Each memory cell is a uint8_t, hence `% 256`. -/
def sp_getl (buf : List Nat) : Nat :=
  ((buf.getD 0 0 % 256) <<< 24) ||| ((buf.getD 1 0 % 256) <<< 16) |||
  ((buf.getD 2 0 % 256) <<< 8) ||| (buf.getD 3 0 % 256)

/-- State of `struct sp_req` (req.c lines 40-48).  `request = none` models the
NULL pointer.  The embedded `resend_timer` is modelled by `timerArmed`
(whether a callback is scheduled) and `timerIvl` (the interval it was armed
with); the base xreq/sockbase state carries nothing the claims need. -/
structure SpReq where
  reqid : Nat
  flags : Nat
  requestlen : Nat
  request : Option (List Nat)
  resend_ivl : Int
  timerArmed : Bool
  timerIvl : Int
  deriving Repr, DecidableEq

/-- Result of sp_req_send: the C return code, the updated state, and the
buffer handed to sp_xreq_send (the dispatch to the raw socket). -/
structure SendResult where
  rc : Int
  req : SpReq
  dispatched : List Nat
  deriving Repr, DecidableEq

/-- Result of sp_req_recv: the C return code, the updated state, and on
success the bytes memcpy'd into the caller's buffer together with the length
stored through the `len` out-parameter. -/
structure RecvResult where
  rc : Int
  req : SpReq
  out : Option (List Nat × Nat)
  deriving Repr, DecidableEq

/-- Result of sp_req_resend_routine: whether the `sp_assert` on the
in-progress flag passed (`ok = false` models the fatal assertion failure),
the updated state, and the buffer re-dispatched to sp_xreq_send. -/
structure ResendResult where
  ok : Bool
  req : SpReq
  dispatched : Option (List Nat)
  deriving Repr, DecidableEq

/-- sp_req_init, req.c lines 74-89.  `randomVal` is the 32-bit value that
sp_random_generate (an external collaborator, modelled from the spec as an
arbitrary entropy source) wrote into `reqid`; the code then masks it with
0x7fffffff. -/
def sp_req_init (randomVal : Nat) : SpReq :=
  { reqid := randomVal &&& 0x7fffffff
    flags := 0
    requestlen := 0
    request := none
    resend_ivl := SP_REQ_DEFAULT_RESEND_IVL
    timerArmed := false
    timerIvl := 0 }

/-- Supersession step of sp_req_send, req.c lines 112-119: if a request is in
progress, free the old buffer, zero the length, null the pointer, clear the
in-progress flag and cancel the resend timer.  `~SP_REQ_INPROGRESS` on a
uint32_t is `0xffffffff ^^^ SP_REQ_INPROGRESS`. -/
def sp_req_supersede (req : SpReq) : SpReq :=
  if req.flags &&& SP_REQ_INPROGRESS ≠ 0 then
    { req with
        requestlen := 0
        request := none
        flags := req.flags &&& (0xffffffff ^^^ SP_REQ_INPROGRESS)
        timerArmed := false }
  else req

/-- sp_req_send, req.c lines 105-148.  After the supersession step it
increments the 32-bit `reqid` and masks it to 31 bits, builds the tagged
buffer `[big-endian (reqid | 0x80000000)] ++ buf` of length `4 + len`,
stores it, dispatches it via sp_xreq_send (whose 0 / -EAGAIN results are both
absorbed), sets the in-progress flag and arms the resend timer with
`resend_ivl`.  Returns 0. -/
def sp_req_send (req0 : SpReq) (buf : List Nat) : SendResult :=
  let req := sp_req_supersede req0
  let reqid := ((req.reqid + 1) % 2 ^ 32) &&& 0x7fffffff
  let requestlen := 4 + buf.length
  let request := sp_putl (reqid ||| 0x80000000) ++ buf
  { rc := 0
    req := { req with
              reqid := reqid
              requestlen := requestlen
              request := some request
              flags := req.flags ||| SP_REQ_INPROGRESS
              timerArmed := true
              timerIvl := req.resend_ivl }
    dispatched := request }

/-- Modelled from the spec: sp_xreq_recv (xreq.c is not under src/).  Spec
section 6: `raw_recv(buffer, max_len) -> Ok(actual_len)` "retrieves the next
available tagged buffer"; the message is copied into the caller's buffer
(truncated to its capacity) and the full message length is reported through
the in/out length argument. -/
def sp_xreq_recv (msg : List Nat) (capacity : Nat) : List Nat × Nat :=
  (msg.take capacity, msg.length)

/-- sp_req_recv, req.c lines 150-210.  `len` is the caller's buffer capacity
(the in-value of the `len` in/out parameter); `raw` is the next message
available from the raw socket, `none` when sp_xreq_recv reports -EAGAIN.
The reply buffer allocated has capacity `4 + len`.  Malformed or mismatched
replies are dropped with -EAGAIN and no state change; a matching reply is
copied (truncated to `len`), the full payload length is reported, the timer
cancelled, the stored request freed and the in-progress flag cleared. -/
def sp_req_recv (req : SpReq) (len : Nat) (raw : Option (List Nat)) :
    RecvResult :=
  if req.flags &&& SP_REQ_INPROGRESS = 0 then
    { rc := -EFSM, req := req, out := none }
  else
    match raw with
    | none => { rc := -EAGAIN, req := req, out := none }
    | some msg =>
      let r := sp_xreq_recv msg (4 + len)
      let reply := r.1
      let replylen := r.2
      if replylen < 4 then
        { rc := -EAGAIN, req := req, out := none }
      else
        let reqid := sp_getl reply
        if reqid &&& 0x80000000 = 0 then
          { rc := -EAGAIN, req := req, out := none }
        else if reqid &&& 0x7fffffff ≠ req.reqid then
          { rc := -EAGAIN, req := req, out := none }
        else
          let n := if len < replylen - 4 then len else replylen - 4
          { rc := 0
            req := { req with
                      timerArmed := false
                      requestlen := 0
                      request := none
                      flags := req.flags &&& (0xffffffff ^^^ SP_REQ_INPROGRESS) }
            out := some ((reply.drop 4).take n, replylen - 4) }

/-- sp_req_resend_routine, req.c lines 212-227.  Asserts the in-progress
flag (`ok = false` models the fatal `sp_assert` failure, in which case
nothing further happens), re-dispatches the stored request buffer unchanged
via sp_xreq_send and rearms the timer with `resend_ivl`. -/
def sp_req_resend_routine (req : SpReq) : ResendResult :=
  if req.flags &&& SP_REQ_INPROGRESS = 0 then
    { ok := false, req := req, dispatched := none }
  else
    { ok := true
      req := { req with timerArmed := true, timerIvl := req.resend_ivl }
      dispatched := req.request }

/-- sp_req_setopt, req.c lines 229-244.  `optval` is the `int` the option
pointer points at, `optvallen` the byte length passed; the value is read only
when the length equals `sizeof (int) = 4`. -/
def sp_req_setopt (req : SpReq) (option : Int) (optval : Int)
    (optvallen : Nat) : Int × SpReq :=
  if option = SP_RESEND_IVL then
    if optvallen ≠ 4 then (-EINVAL, req)
    else (0, { req with resend_ivl := optval })
  else (-ENOPROTOOPT, req)

/-- sp_req_getopt, req.c lines 246-262.  Returns the C return code, the value
stored through `*optvallen`, and the `int` stored through the option pointer
(`none` when the code does not write it).  Note the length check is
`*optvallen < sizeof (int)`, a lower bound, not an equality test. -/
def sp_req_getopt (req : SpReq) (option : Int) (optvallen : Nat) :
    Int × Nat × Option Int :=
  if option = SP_RESEND_IVL then
    if optvallen < 4 then (-EINVAL, optvallen, none)
    else (0, 4, some req.resend_ivl)
  else (-ENOPROTOOPT, optvallen, none)

/-- A caller-level operation on the socket: a send with a payload, or a recv
with a buffer capacity and the raw message available (if any). -/
inductive SockOp where
  | send : List Nat → SockOp
  | recv : Nat → Option (List Nat) → SockOp
  deriving Repr, DecidableEq

/-- Run a list of operations, collecting the masked wire-tag ID (the decoded
4-byte tag with bit 31 cleared) of every buffer dispatched by a send, in
order. -/
def runOps : SpReq → List SockOp → SpReq × List Nat
  | req, [] => (req, [])
  | req, SockOp.send buf :: rest =>
      let r := sp_req_send req buf
      let t := runOps r.req rest
      (t.1, (sp_getl r.dispatched &&& 0x7fffffff) :: t.2)
  | req, SockOp.recv len raw :: rest =>
      runOps (sp_req_recv req len raw).req rest

/-- Number of sends in an operation list. -/
def numSends : List SockOp → Nat
  | [] => 0
  | SockOp.send _ :: rest => numSends rest + 1
  | SockOp.recv _ _ :: rest => numSends rest

/-!  Arithmetic helper lemmas about the bit operations used by req.c.  -/

theorem and_255_eq_mod (x : Nat) : x &&& 0xff = x % 256 := by
  have h := Nat.and_pow_two_sub_one_eq_mod x 8
  norm_num at h
  exact h

theorem and_mask31 (x : Nat) : x &&& 0x7fffffff = x % 2 ^ 31 := by
  have h := Nat.and_pow_two_sub_one_eq_mod x 31
  norm_num at h
  exact h

theorem lor_shiftLeft_eq_add (k a b : Nat) (hb : b < 2 ^ k) :
    a <<< k ||| b = 2 ^ k * a + b := by
  rw [Nat.shiftLeft_eq, Nat.mul_comm, ← Nat.mul_add_lt_is_or hb]

theorem sp_getl_putl (v : Nat) (rest : List Nat) :
    sp_getl (sp_putl v ++ rest) = v % 2 ^ 32 := by
  simp only [sp_putl, sp_getl, List.cons_append, List.getD_cons_zero,
    List.getD_cons_succ, and_255_eq_mod, Nat.shiftRight_eq_div_pow]
  rw [Nat.lor_assoc, Nat.lor_assoc]
  rw [lor_shiftLeft_eq_add 8 (v / 2 ^ 8 % 256 % 256) (v % 256 % 256)
    (by omega)]
  rw [lor_shiftLeft_eq_add 16 (v / 2 ^ 16 % 256 % 256)
    (2 ^ 8 * (v / 2 ^ 8 % 256 % 256) + v % 256 % 256) (by omega)]
  rw [lor_shiftLeft_eq_add 24 (v / 2 ^ 24 % 256 % 256)
    (2 ^ 16 * (v / 2 ^ 16 % 256 % 256) +
      (2 ^ 8 * (v / 2 ^ 8 % 256 % 256) + v % 256 % 256)) (by omega)]
  omega

theorem sp_getl_take (msg : List Nat) (cap : Nat) (h : 4 ≤ cap) :
    sp_getl (msg.take cap) = sp_getl msg := by
  simp only [sp_getl, List.getD_eq_getElem?_getD, List.getElem?_take]
  rw [if_pos (by omega), if_pos (by omega), if_pos (by omega),
    if_pos (by omega)]

theorem or_one_and_one (f : Nat) : (f ||| 1) &&& 1 = 1 := by
  rw [Nat.and_distrib_right, Nat.and_one_is_mod]
  rcases Nat.mod_two_eq_zero_or_one f with h | h <;> rw [h] <;> decide

theorem and_mask_and_one (f : Nat) : (f &&& 0xfffffffe) &&& 1 = 0 := by
  rw [Nat.land_assoc]
  norm_num

theorem or_marker (id : Nat) (h : id < 2 ^ 31) :
    id ||| 0x80000000 = 2 ^ 31 + id := by
  have h2 := Nat.mul_add_lt_is_or h 1
  rw [Nat.mul_one] at h2
  rw [Nat.lor_comm, show (0x80000000 : Nat) = 2 ^ 31 by norm_num]
  exact h2.symm

theorem and_marker_eq_zero (x : Nat) (h : x < 2 ^ 31) :
    x &&& 0x80000000 = 0 := by
  rw [show (0x80000000 : Nat) = 2 ^ 31 by norm_num, Nat.and_two_pow]
  have ht : x.testBit 31 = false := by
    rw [Nat.testBit_to_div_mod]
    simp only [decide_eq_false_iff_not]
    omega
  simp [ht]

theorem sp_putl_length (v : Nat) : (sp_putl v).length = 4 := rfl

theorem mask_complement :
    (0xffffffff ^^^ SP_REQ_INPROGRESS : Nat) = 0xfffffffe := by decide

theorem supersede_reqid (req : SpReq) :
    (sp_req_supersede req).reqid = req.reqid := by
  unfold sp_req_supersede
  split <;> rfl

theorem supersede_resend_ivl (req : SpReq) :
    (sp_req_supersede req).resend_ivl = req.resend_ivl := by
  unfold sp_req_supersede
  split <;> rfl

theorem supersede_idem (req : SpReq) :
    sp_req_supersede (sp_req_supersede req) = sp_req_supersede req := by
  unfold sp_req_supersede
  split
  · simp only [mask_complement]
    simp [SP_REQ_INPROGRESS, and_mask_and_one]
  · rfl

theorem send_reqid (req : SpReq) (buf : List Nat) :
    (sp_req_send req buf).req.reqid = ((req.reqid + 1) % 2 ^ 32) &&& 0x7fffffff := by
  simp [sp_req_send, supersede_reqid]

theorem send_reqid_mod (req : SpReq) (buf : List Nat) :
    (sp_req_send req buf).req.reqid = (req.reqid + 1) % 2 ^ 31 := by
  rw [send_reqid, and_mask31]
  omega

theorem reqid_lt_after_send (req : SpReq) (buf : List Nat) :
    (sp_req_send req buf).req.reqid < 2 ^ 31 := by
  rw [send_reqid_mod]
  omega

theorem send_dispatched_getl (req : SpReq) (buf : List Nat) :
    sp_getl (sp_req_send req buf).dispatched =
      (sp_req_send req buf).req.reqid ||| 0x80000000 := by
  have hlt : (sp_req_send req buf).req.reqid < 2 ^ 31 :=
    reqid_lt_after_send req buf
  have hd : (sp_req_send req buf).dispatched =
      sp_putl ((sp_req_send req buf).req.reqid ||| 0x80000000) ++ buf := rfl
  rw [hd, sp_getl_putl, or_marker _ hlt]
  omega

theorem send_dispatched_tag_masked (req : SpReq) (buf : List Nat) :
    sp_getl (sp_req_send req buf).dispatched &&& 0x7fffffff =
      (sp_req_send req buf).req.reqid := by
  have hlt := reqid_lt_after_send req buf
  rw [send_dispatched_getl, or_marker _ hlt, and_mask31]
  omega

theorem recv_reqid (req : SpReq) (len : Nat) (raw : Option (List Nat)) :
    (sp_req_recv req len raw).req.reqid = req.reqid := by
  rcases raw with _ | msg <;>
    simp only [sp_req_recv, sp_xreq_recv] <;>
    (repeat' split) <;> rfl

/-- C9: after sp_req_init the correlation ID equals the random-source value
masked to 31 bits (so bit 31 is clear), the in-progress flag is false, the
stored request buffer is absent with length 0, and the resend interval is the
default 60000 ms. -/
theorem c9_init_state (randomVal : Nat) :
    (sp_req_init randomVal).reqid = randomVal % 2 ^ 31 ∧
    (sp_req_init randomVal).reqid &&& 0x80000000 = 0 ∧
    (sp_req_init randomVal).flags &&& SP_REQ_INPROGRESS = 0 ∧
    (sp_req_init randomVal).request = none ∧
    (sp_req_init randomVal).requestlen = 0 ∧
    (sp_req_init randomVal).resend_ivl = 60000 := by
  have h1 : (sp_req_init randomVal).reqid = randomVal % 2 ^ 31 :=
    and_mask31 randomVal
  refine ⟨h1, ?_, ?_, rfl, rfl, rfl⟩
  · refine and_marker_eq_zero _ ?_
    rw [h1]
    exact Nat.mod_lt _ (by norm_num)
  · show (0 : Nat) &&& SP_REQ_INPROGRESS = 0
    decide

/-- C4: the stored and dispatched request buffer built by sp_req_send has
length exactly 4 + len and consists of the 4-byte big-endian encoding of
(correlation_id | 0x80000000) followed by the payload bytes unchanged. -/
theorem c4_send_buffer_layout (req : SpReq) (buf : List Nat) :
    (sp_req_send req buf).dispatched =
      sp_putl ((sp_req_send req buf).req.reqid ||| 0x80000000) ++ buf ∧
    (sp_req_send req buf).req.request = some (sp_req_send req buf).dispatched ∧
    (sp_req_send req buf).dispatched.length = 4 + buf.length ∧
    (sp_req_send req buf).req.requestlen = 4 + buf.length ∧
    (sp_req_send req buf).dispatched.drop 4 = buf ∧
    sp_getl (sp_req_send req buf).dispatched =
      (sp_req_send req buf).req.reqid ||| 0x80000000 := by
  refine ⟨rfl, rfl, ?_, rfl, ?_, send_dispatched_getl req buf⟩
  · show (sp_putl _ ++ buf).length = 4 + buf.length
    simp [sp_putl]
    omega
  · show (sp_putl _ ++ buf).drop 4 = buf
    simp [sp_putl]

/-- C7: the resend callback, fired while a request is in progress, dispatches
exactly the stored request buffer (no new allocation) and rearms the timer
for resend_ivl, leaving every other state field unchanged; fired while no
request is in progress it is a fatal assertion failure (ok = false). -/
theorem c7_resend_same_buffer (req : SpReq) :
    (req.flags &&& SP_REQ_INPROGRESS ≠ 0 →
      sp_req_resend_routine req =
        { ok := true
          req := { req with timerArmed := true, timerIvl := req.resend_ivl }
          dispatched := req.request }) ∧
    (req.flags &&& SP_REQ_INPROGRESS = 0 →
      sp_req_resend_routine req =
        { ok := false, req := req, dispatched := none }) := by
  constructor
  · intro h
    unfold sp_req_resend_routine
    rw [if_neg h]
  · intro h
    unfold sp_req_resend_routine
    rw [if_pos h]

/-- Witness for C7: a concrete in-progress socket; the callback redispatches
the stored buffer byte-for-byte and rearms the timer. -/
theorem c7_resend_same_buffer_witness :
    sp_req_resend_routine
        { reqid := 7, flags := 1, requestlen := 5,
          request := some [128, 0, 0, 7, 9], resend_ivl := 100,
          timerArmed := true, timerIvl := 100 } =
      { ok := true
        req := { reqid := 7, flags := 1, requestlen := 5,
                 request := some [128, 0, 0, 7, 9], resend_ivl := 100,
                 timerArmed := true, timerIvl := 100 }
        dispatched := some [128, 0, 0, 7, 9] } :=
  (c7_resend_same_buffer _).1 (by decide)

/-- C10: sp_req_setopt performs no validation of the 4-byte value itself:
any 32-bit value, zero or negative included, is accepted and stored verbatim,
and it is the interval used by the next timer arming (in sp_req_send and in
sp_req_resend_routine). -/
theorem c10_setopt_stores_verbatim (req : SpReq) (v : Int) (buf : List Nat)
    (hv : -(2 ^ 31) ≤ v ∧ v < 2 ^ 31) :
    sp_req_setopt req SP_RESEND_IVL v 4 = (0, { req with resend_ivl := v }) ∧
    (sp_req_send { req with resend_ivl := v } buf).req.timerIvl = v ∧
    (req.flags &&& SP_REQ_INPROGRESS ≠ 0 →
      (sp_req_resend_routine { req with resend_ivl := v }).req.timerIvl = v) := by
  refine ⟨?_, ?_, ?_⟩
  · unfold sp_req_setopt
    rw [if_pos rfl, if_neg (by decide)]
  · show (sp_req_supersede { req with resend_ivl := v }).resend_ivl = v
    rw [supersede_resend_ivl]
  · intro h
    unfold sp_req_resend_routine
    rw [if_neg h]

/-- Witness for C10: a negative interval value (-1) is accepted and stored. -/
theorem c10_setopt_stores_verbatim_witness :
    sp_req_setopt (sp_req_init 3) SP_RESEND_IVL (-1) 4 =
      (0, { sp_req_init 3 with resend_ivl := -1 }) :=
  ((c10_setopt_stores_verbatim (sp_req_init 3) (-1) []) (by decide)).1

/-- Counterexample for C8: a get-option call on the resend-interval option
with an 8-byte value length does not fail with -EINVAL as the claim states;
it succeeds, because sp_req_getopt checks `*optvallen < sizeof (int)`, a
lower bound, not an equality. -/
theorem c8_counterexample :
    (sp_req_getopt (sp_req_init 0) SP_RESEND_IVL 8).1 = 0 ∧
    (sp_req_getopt (sp_req_init 0) SP_RESEND_IVL 8).1 ≠ -EINVAL := by decide

/-- C8 (amended): sp_req_setopt on the resend-interval option requires the
value length to equal sizeof(int) = 4 and fails with -EINVAL otherwise;
sp_req_getopt requires the length to be at least 4, failing with -EINVAL
only when it is shorter; an unrecognized option identifier fails with
-ENOPROTOOPT in both; a successful set is reflected by a subsequent get. -/
theorem c8_option_validation (req : SpReq) (opt optval : Int)
    (optvallen : Nat) (hopt : opt ≠ SP_RESEND_IVL) :
    (optvallen ≠ 4 →
      sp_req_setopt req SP_RESEND_IVL optval optvallen = (-EINVAL, req)) ∧
    sp_req_setopt req SP_RESEND_IVL optval 4 =
      (0, { req with resend_ivl := optval }) ∧
    (optvallen < 4 →
      sp_req_getopt req SP_RESEND_IVL optvallen = (-EINVAL, optvallen, none)) ∧
    (4 ≤ optvallen →
      sp_req_getopt req SP_RESEND_IVL optvallen = (0, 4, some req.resend_ivl)) ∧
    (sp_req_setopt req opt optval optvallen).1 = -ENOPROTOOPT ∧
    (sp_req_getopt req opt optvallen).1 = -ENOPROTOOPT ∧
    sp_req_getopt (sp_req_setopt req SP_RESEND_IVL optval 4).2
        SP_RESEND_IVL 4 = (0, 4, some optval) := by
  refine ⟨?_, ?_, ?_, ?_, ?_, ?_, ?_⟩
  · intro h
    unfold sp_req_setopt
    rw [if_pos rfl, if_pos h]
  · unfold sp_req_setopt
    rw [if_pos rfl, if_neg (by decide)]
  · intro h
    unfold sp_req_getopt
    rw [if_pos rfl, if_pos h]
  · intro h
    unfold sp_req_getopt
    rw [if_pos rfl, if_neg (by omega)]
  · unfold sp_req_setopt
    rw [if_neg hopt]
  · unfold sp_req_getopt
    rw [if_neg hopt]
  · unfold sp_req_setopt sp_req_getopt
    rw [if_pos rfl, if_neg (by decide), if_pos rfl, if_neg (by omega)]

/-- Witness for C8 (amended): a 2-byte set fails with -EINVAL. -/
theorem c8_option_validation_witness :
    sp_req_setopt (sp_req_init 0) SP_RESEND_IVL 7 2 = (-EINVAL, sp_req_init 0) :=
  (c8_option_validation (sp_req_init 0) 99 7 2 (by decide)).1 (by decide)

theorem recv_idle_eq (req : SpReq) (len : Nat) (raw : Option (List Nat))
    (h : req.flags &&& SP_REQ_INPROGRESS = 0) :
    sp_req_recv req len raw = { rc := -EFSM, req := req, out := none } := by
  unfold sp_req_recv
  rw [if_pos h]

theorem recv_reject (req : SpReq) (len : Nat) (raw : Option (List Nat))
    (hIn : req.flags &&& SP_REQ_INPROGRESS ≠ 0)
    (hbad : ∀ msg, raw = some msg →
      msg.length < 4 ∨ sp_getl msg &&& 0x80000000 = 0 ∨
      sp_getl msg &&& 0x7fffffff ≠ req.reqid) :
    sp_req_recv req len raw = { rc := -EAGAIN, req := req, out := none } := by
  unfold sp_req_recv
  rw [if_neg hIn]
  rcases raw with _ | msg
  · rfl
  · have hb := hbad msg rfl
    simp only [sp_xreq_recv]
    by_cases h4 : msg.length < 4
    · rw [if_pos h4]
    · rw [if_neg h4]
      rw [sp_getl_take msg (4 + len) (by omega)]
      rcases hb with h | h | h
      · omega
      · rw [if_pos h]
      · by_cases hm : sp_getl msg &&& 0x80000000 = 0
        · rw [if_pos hm]
        · rw [if_neg hm, if_pos h]

theorem recv_success_clears_flag (req : SpReq) (len : Nat)
    (raw : Option (List Nat)) (h : (sp_req_recv req len raw).rc = 0) :
    (sp_req_recv req len raw).req.flags &&& SP_REQ_INPROGRESS = 0 := by
  by_cases h0 : req.flags &&& SP_REQ_INPROGRESS = 0
  · exfalso
    unfold sp_req_recv at h
    rw [if_pos h0] at h
    simp [EFSM] at h
  · rcases raw with _ | msg
    · exfalso
      unfold sp_req_recv at h
      rw [if_neg h0] at h
      simp [EAGAIN] at h
    · unfold sp_req_recv at h ⊢
      rw [if_neg h0] at h ⊢
      simp only [sp_xreq_recv] at h ⊢
      by_cases h4 : msg.length < 4
      · rw [if_pos h4] at h
        simp [EAGAIN] at h
      · rw [if_neg h4] at h ⊢
        by_cases hm : sp_getl (msg.take (4 + len)) &&& 0x80000000 = 0
        · rw [if_pos hm] at h
          simp [EAGAIN] at h
        · rw [if_neg hm] at h ⊢
          by_cases hid : sp_getl (msg.take (4 + len)) &&& 0x7fffffff ≠ req.reqid
          · rw [if_pos hid] at h
            simp [EAGAIN] at h
          · rw [if_neg hid] at h ⊢
            show (req.flags &&& (0xffffffff ^^^ SP_REQ_INPROGRESS)) &&&
              SP_REQ_INPROGRESS = 0
            rw [mask_complement]
            exact and_mask_and_one _

/-- C2: while a request is in progress, a missing reply, a reply shorter than
4 bytes, a reply whose decoded 4-byte tag has bit 31 clear, and a reply whose
masked ID differs from the current correlation ID all make sp_req_recv
return -EAGAIN with the socket state entirely unchanged (stored request
kept, in-progress flag set, resend timer still armed). -/
theorem c2_recv_try_again_state_unchanged (req : SpReq) (len : Nat)
    (raw : Option (List Nat))
    (hIn : req.flags &&& SP_REQ_INPROGRESS ≠ 0)
    (hbad : ∀ msg, raw = some msg →
      msg.length < 4 ∨ sp_getl msg &&& 0x80000000 = 0 ∨
      sp_getl msg &&& 0x7fffffff ≠ req.reqid) :
    sp_req_recv req len raw = { rc := -EAGAIN, req := req, out := none } :=
  recv_reject req len raw hIn hbad

/-- Witness for C2: a concrete in-progress socket and a 2-byte (malformed)
reply; recv yields -EAGAIN and the state is untouched. -/
theorem c2_recv_try_again_state_unchanged_witness :
    sp_req_recv
        { reqid := 5, flags := 1, requestlen := 5,
          request := some [128, 0, 0, 5, 1], resend_ivl := 60000,
          timerArmed := true, timerIvl := 60000 } 3 (some [1, 2]) =
      { rc := -EAGAIN
        req := { reqid := 5, flags := 1, requestlen := 5,
                 request := some [128, 0, 0, 5, 1], resend_ivl := 60000,
                 timerArmed := true, timerIvl := 60000 }
        out := none } :=
  c2_recv_try_again_state_unchanged _ 3 (some [1, 2]) (by decide)
    (by intro msg hm; injection hm with h; subst h; left; decide)

/-- C6: sp_req_recv called while no request is in progress fails immediately
with -EFSM and changes nothing; in particular after a successful recv (which
clears the in-progress flag) a second recv without an intervening send
returns -EFSM. -/
theorem c6_recv_idle_efsm (req : SpReq) (len : Nat) (raw : Option (List Nat))
    (len2 : Nat) (raw2 : Option (List Nat)) :
    (req.flags &&& SP_REQ_INPROGRESS = 0 →
      sp_req_recv req len raw = { rc := -EFSM, req := req, out := none }) ∧
    ((sp_req_recv req len raw).rc = 0 →
      sp_req_recv (sp_req_recv req len raw).req len2 raw2 =
        { rc := -EFSM
          req := (sp_req_recv req len raw).req
          out := none }) :=
  ⟨recv_idle_eq req len raw,
   fun h => recv_idle_eq _ len2 raw2 (recv_success_clears_flag req len raw h)⟩

/-- Witness for C6: recv on a freshly initialized (idle) socket fails with
-EFSM and leaves the state unchanged. -/
theorem c6_recv_idle_efsm_witness :
    sp_req_recv (sp_req_init 4) 3 none =
      { rc := -EFSM, req := sp_req_init 4, out := none } :=
  (c6_recv_idle_efsm (sp_req_init 4) 3 none 0 none).1 (by decide)

/-- C5: on a matching reply, sp_req_recv copies exactly
min(max_len, reply_payload_len) bytes of the payload (the bytes after the
4-byte tag) into the caller's buffer and reports the full untruncated payload
length even when it exceeds the buffer capacity. -/
theorem c5_recv_match_truncates (req : SpReq) (len : Nat) (msg : List Nat)
    (hIn : req.flags &&& SP_REQ_INPROGRESS ≠ 0)
    (hlen : 4 ≤ msg.length)
    (hmarker : sp_getl msg &&& 0x80000000 ≠ 0)
    (hid : sp_getl msg &&& 0x7fffffff = req.reqid) :
    (sp_req_recv req len (some msg)).rc = 0 ∧
    (sp_req_recv req len (some msg)).out =
      some ((msg.drop 4).take (min len (msg.length - 4)), msg.length - 4) ∧
    ((msg.drop 4).take (min len (msg.length - 4))).length =
      min len (msg.length - 4) := by
  have key : sp_req_recv req len (some msg) =
      { rc := 0
        req := { req with
                  timerArmed := false
                  requestlen := 0
                  request := none
                  flags := req.flags &&& (0xffffffff ^^^ SP_REQ_INPROGRESS) }
        out := some ((msg.drop 4).take (min len (msg.length - 4)),
                     msg.length - 4) } := by
    unfold sp_req_recv
    rw [if_neg hIn]
    simp only [sp_xreq_recv]
    rw [if_neg (by omega), sp_getl_take msg (4 + len) (by omega),
        if_neg hmarker, if_neg (not_not_intro hid)]
    have hdt : (msg.take (4 + len)).drop 4 = (msg.drop 4).take len := by
      rw [List.drop_take]
      norm_num
    rw [hdt, List.take_take]
    have hmin : ((if len < msg.length - 4 then len else msg.length - 4) ⊓ len)
        = min len (msg.length - 4) := by
      split <;> omega
    rw [hmin]
  refine ⟨by rw [key], by rw [key], ?_⟩
  simp only [List.length_take, List.length_drop]
  omega

/-- Witness for C5: an in-progress socket with ID 5 receiving the matching
reply tag ++ [1, 2, 3] into a 2-byte buffer: 2 bytes are copied, 3 is
reported. -/
theorem c5_recv_match_truncates_witness :
    (sp_req_recv
        { reqid := 5, flags := 1, requestlen := 6,
          request := some [128, 0, 0, 5, 9, 9], resend_ivl := 60000,
          timerArmed := true, timerIvl := 60000 } 2
        (some (sp_putl (5 ||| 0x80000000) ++ [1, 2, 3]))).out =
      some ([1, 2], 3) := by
  have h := (c5_recv_match_truncates
    { reqid := 5, flags := 1, requestlen := 6,
      request := some [128, 0, 0, 5, 9, 9], resend_ivl := 60000,
      timerArmed := true, timerIvl := 60000 } 2
    (sp_putl (5 ||| 0x80000000) ++ [1, 2, 3])
    (by decide) (by decide) (by decide) (by decide)).2.1
  rw [h]
  decide

/-- C1: while a request is in progress, sp_req_send first releases the old
stored buffer, clears the in-progress flag and cancels the resend timer (the
supersession step, which the rest of send then builds on — superseding is
idempotent, so sending from the superseded state is the same send), and a
reply carrying the superseded correlation ID is afterwards rejected by
sp_req_recv with -EAGAIN even before any reply to the new ID arrives. -/
theorem c1_send_supersedes_stale_rejected (req : SpReq) (buf : List Nat)
    (len : Nat) (msg : List Nat)
    (hIn : req.flags &&& SP_REQ_INPROGRESS ≠ 0)
    (hid : req.reqid < 2 ^ 31)
    (hmsg : 4 ≤ msg.length)
    (hold : sp_getl msg &&& 0x7fffffff = req.reqid) :
    (sp_req_supersede req).request = none ∧
    (sp_req_supersede req).requestlen = 0 ∧
    (sp_req_supersede req).flags &&& SP_REQ_INPROGRESS = 0 ∧
    (sp_req_supersede req).timerArmed = false ∧
    sp_req_send req buf = sp_req_send (sp_req_supersede req) buf ∧
    (sp_req_send req buf).req.reqid ≠ req.reqid ∧
    sp_req_recv (sp_req_send req buf).req len (some msg) =
      { rc := -EAGAIN, req := (sp_req_send req buf).req, out := none } := by
  have hsup : sp_req_supersede req =
      { req with
          requestlen := 0
          request := none
          flags := req.flags &&& (0xffffffff ^^^ SP_REQ_INPROGRESS)
          timerArmed := false } := by
    unfold sp_req_supersede
    rw [if_pos hIn]
  refine ⟨by rw [hsup], by rw [hsup], ?_, by rw [hsup], ?_, ?_, ?_⟩
  · rw [hsup]
    show (req.flags &&& (0xffffffff ^^^ SP_REQ_INPROGRESS)) &&&
      SP_REQ_INPROGRESS = 0
    rw [mask_complement]
    exact and_mask_and_one _
  · simp only [sp_req_send, supersede_idem]
  · rw [send_reqid_mod]
    omega
  · refine recv_reject _ len (some msg) ?_ ?_
    · show ((sp_req_supersede req).flags ||| 1) &&& 1 ≠ 0
      rw [or_one_and_one]
      decide
    · intro m hm
      injection hm with h
      subst h
      refine Or.inr (Or.inr ?_)
      rw [hold, send_reqid_mod]
      omega

/-- Witness for C1: a socket with request 100 in flight; a new send bumps the
ID to 101 and a reply tagged with the old ID 100 is rejected with -EAGAIN. -/
theorem c1_send_supersedes_stale_rejected_witness :
    sp_req_recv
        (sp_req_send
          { reqid := 100, flags := 1, requestlen := 5,
            request := some [128, 0, 0, 100, 9], resend_ivl := 60000,
            timerArmed := true, timerIvl := 60000 } [1]).req 4
        (some (sp_putl (100 ||| 0x80000000) ++ [7, 7])) =
      { rc := -EAGAIN
        req := (sp_req_send
          { reqid := 100, flags := 1, requestlen := 5,
            request := some [128, 0, 0, 100, 9], resend_ivl := 60000,
            timerArmed := true, timerIvl := 60000 } [1]).req
        out := none } :=
  (c1_send_supersedes_stale_rejected
    { reqid := 100, flags := 1, requestlen := 5,
      request := some [128, 0, 0, 100, 9], resend_ivl := 60000,
      timerArmed := true, timerIvl := 60000 } [1] 4
    (sp_putl (100 ||| 0x80000000) ++ [7, 7])
    (by decide) (by decide) (by decide) (by decide)).2.2.2.2.2.2

theorem runOps_tags (ops : List SockOp) : ∀ req : SpReq,
    req.reqid < 2 ^ 31 →
    (runOps req ops).2 = (List.range (numSends ops)).map
      (fun k => (req.reqid + (k + 1)) % 2 ^ 31) := by
  induction ops with
  | nil =>
    intro req _
    rfl
  | cons op rest ih =>
    intro req h
    cases op with
    | send buf =>
      show ((sp_getl (sp_req_send req buf).dispatched &&& 0x7fffffff) ::
          (runOps (sp_req_send req buf).req rest).2) =
        (List.range (numSends rest + 1)).map
          (fun k => (req.reqid + (k + 1)) % 2 ^ 31)
      rw [send_dispatched_tag_masked]
      rw [ih (sp_req_send req buf).req (reqid_lt_after_send req buf)]
      rw [send_reqid_mod, List.range_succ_eq_map, List.map_cons,
        List.map_map]
      refine congrArg₂ _ (by omega) ?_
      refine List.map_congr_left ?_
      intro a _
      show ((req.reqid + 1) % 2 ^ 31 + (a + 1)) % 2 ^ 31 =
        (req.reqid + (Nat.succ a + 1)) % 2 ^ 31
      omega
    | recv len raw =>
      show (runOps (sp_req_recv req len raw).req rest).2 =
        (List.range (numSends rest)).map
          (fun k => (req.reqid + (k + 1)) % 2 ^ 31)
      rw [ih (sp_req_recv req len raw).req (by rw [recv_reqid]; exact h)]
      rw [recv_reqid]

/-- C3: across any sequence of operations containing N sends, the masked
wire-tag IDs placed in the dispatched buffers are id0+1, id0+2, ..., id0+N
mod 2^31 where id0 is the starting correlation ID, regardless of the
intervening recv calls and their outcomes; recv never changes the
correlation ID. -/
theorem c3_monotonic_ids (req : SpReq) (ops : List SockOp)
    (hid : req.reqid < 2 ^ 31) :
    (runOps req ops).2 = (List.range (numSends ops)).map
      (fun k => (req.reqid + (k + 1)) % 2 ^ 31) ∧
    ∀ len raw, (sp_req_recv req len raw).req.reqid = req.reqid :=
  ⟨runOps_tags ops req hid, fun len raw => recv_reqid req len raw⟩

/-- Witness for C3: starting from ID 5, three sends interleaved with a
failing recv and a successful recv dispatch tags 6, 7, 8. -/
theorem c3_monotonic_ids_witness :
    (runOps (sp_req_init 5)
        [SockOp.send [1], SockOp.recv 0 none, SockOp.send [2],
         SockOp.recv 8 (some (sp_putl (7 ||| 0x80000000) ++ [3])),
         SockOp.send [4]]).2 = [6, 7, 8] := by
  have h := (c3_monotonic_ids (sp_req_init 5)
    [SockOp.send [1], SockOp.recv 0 none, SockOp.send [2],
     SockOp.recv 8 (some (sp_putl (7 ||| 0x80000000) ++ [3])),
     SockOp.send [4]] (by decide)).1
  rw [h]
  decide
